import Mathlib

/-!
Shallow embedding of the infrastructure DCF valuation engine
(`infrastructure_dcf.py`): the financial-record data model, the
sector classifier, the expansion-phase detector, the FCF normalizer,
the WACC computation and the projection / terminal-value pipeline.

Modelling conventions:
* Python floats are modelled as exact rationals (`ℚ`); every arithmetic
  identity claimed by the spec is an identity of the operation sequence
  itself, so it is exact in both models.
* `numpy` standard-deviation comparisons (`std/mean > t`, `std < t`)
  are embedded by comparing population variances against squared
  thresholds, which is an exact reformulation for nonnegative
  standard deviations and positive thresholds.
* Python statements that raise (`ZeroDivisionError` on float division
  by zero, `IndexError` on `[-1]` of an empty list) are modelled by
  `Option`, with `none` for a raised error.
* In-place mutation of the engine object (`self._sector_enum`,
  `self.validation_results`, `self.data.sector`) is modelled by
  threading an explicit `EngineState`.
-/

namespace DCF

/-- `InfrastructureSector` enum of the source. -/
inductive InfrastructureSector where
  | TOWERS
  | TELECOM_INFRA
  | REITS
  | UTILITIES
  | PIPELINES
  | TOLL_ROADS
  | AIRPORTS
  | DATA_CENTERS
  | OTHER
  deriving DecidableEq, Repr

/-- The `.value` string of each `InfrastructureSector` member. -/
def sectorValue : InfrastructureSector → String
  | .TOWERS => "towers"
  | .TELECOM_INFRA => "telecom_infrastructure"
  | .REITS => "reits"
  | .UTILITIES => "utilities"
  | .PIPELINES => "pipelines"
  | .TOLL_ROADS => "toll_roads"
  | .AIRPORTS => "airports"
  | .DATA_CENTERS => "data_centers"
  | .OTHER => "other"

/-- `CompanyFinancials` dataclass.  `net_debt` is declared
`field(init := False)` in the source and assigned in `__post_init__`;
here it is an ordinary field that the constructor function
`mkFinancials` overwrites with `total_debt - cash`. -/
structure CompanyFinancials where
  company_name : String
  sector : String
  revenues : List ℚ
  ebitda : List ℚ
  depreciation : List ℚ
  interest_expense : List ℚ
  capex : List ℚ
  operating_cash_flow : Option (List ℚ) := none
  total_debt : ℚ := 0
  cash : ℚ := 0
  total_assets : ℚ := 0
  total_equity : ℚ := 0
  market_cap : ℚ := 0
  shares_outstanding : ℚ := 0
  current_price : ℚ := 0
  risk_free_rate : ℚ := 0.025
  market_risk_premium : ℚ := 0.06
  effective_tax_rate : ℚ := 0.25
  maintenance_capex_guidance : Option ℚ := none
  revenue_growth_rate : ℚ := 0.03
  terminal_growth_rate : ℚ := 0.02
  avg_contract_duration : Option ℚ := none
  asset_beta : Option ℚ := none
  dividend_per_share : ℚ := 0
  net_debt : ℚ := 0
  deriving DecidableEq, Repr

/-- `CompanyFinancials.__post_init__` together with `_validate_data`:
computes `net_debt = total_debt - cash`, then checks that the five
time series have equal length (`len(set(lengths)) > 1` raises) and that
at least 3 periods of revenues are supplied.  A raised `ValueError`
is modelled by `none`; the `net_debt` field of the argument is ignored
and overwritten, as in the source. -/
def mkFinancials (d : CompanyFinancials) : Option CompanyFinancials :=
  let n := d.revenues.length
  if d.ebitda.length = n ∧ d.depreciation.length = n ∧
     d.capex.length = n ∧ d.interest_expense.length = n then
    if 3 ≤ n then
      some { d with net_debt := d.total_debt - d.cash }
    else none
  else none

/-- Models the Python attribute assignment `record.total_debt = x`:
plain field update, `net_debt` is a stored attribute and is not
recomputed by any mechanism in the source. -/
def setTotalDebt (d : CompanyFinancials) (x : ℚ) : CompanyFinancials :=
  { d with total_debt := x }

/-- Models the Python attribute assignment `record.cash = x`. -/
def setCash (d : CompanyFinancials) (x : ℚ) : CompanyFinancials :=
  { d with cash := x }

/-- `np.mean` over a list (`0` for the empty list, which never occurs
on the paths exercised by validated records). -/
def npMean (xs : List ℚ) : ℚ := xs.sum / xs.length

/-- Population variance, i.e. the square of `np.std` (ddof = 0). -/
def popVar (xs : List ℚ) : ℚ :=
  ((xs.map (fun x => (x - npMean xs) ^ 2)).sum) / xs.length

/-- Python slice `xs[-n:]`: the last `n` elements (all of them when
fewer than `n` are available). -/
def lastN {α : Type} (n : ℕ) (xs : List α) : List α :=
  xs.drop (xs.length - n)

/-- Insert into a sorted list (ascending). -/
def insertSorted (x : ℚ) : List ℚ → List ℚ
  | [] => [x]
  | y :: ys => if x ≤ y then x :: y :: ys else y :: insertSorted x ys

/-- Insertion sort, ascending. -/
def sortAsc (xs : List ℚ) : List ℚ := xs.foldr insertSorted []

/-- `np.percentile(xs, 25)` with the default linear interpolation:
position `h = (n-1)/4`, result `s[⌊h⌋] + frac(h)·(s[⌊h⌋+1] − s[⌊h⌋])`
over the ascending sort `s` of `xs`. -/
def npPercentile25 (xs : List ℚ) : ℚ :=
  let s := sortAsc xs
  let n := s.length
  if n = 0 then 0
  else
    let k := (n - 1) / 4
    let r := (n - 1) % 4
    s.getD k 0 + (r : ℚ) / 4 * (s.getD (k + 1) 0 - s.getD k 0)

/-- Year-over-year revenue growth: `np.diff(revenues) / revenues[:-1]`.
(Division by a zero entry cannot occur on the records the claims range
over; the total-division convention `x / 0 = 0` is used there.) -/
def yoyGrowth (rs : List ℚ) : List ℚ :=
  List.zipWith (fun prev next => (next - prev) / prev) rs (rs.drop 1)

/-- `_calculate_revenue_volatility`, squared: `0` for fewer than two
periods, otherwise the population variance of the year-over-year
growth rates (the square of the `np.std` the source computes). -/
def revVolSq (d : CompanyFinancials) : ℚ :=
  if d.revenues.length < 2 then 0 else popVar (yoyGrowth d.revenues)

/-- The ratio dictionary produced by `_analyze_business_model`.
`revenue_volatility_sq` stores the square of the source's
`revenue_volatility`. -/
structure BizChars where
  ebitda_margin : ℚ
  asset_intensity : ℚ
  revenue_volatility_sq : ℚ
  leverage : ℚ
  capex_intensity : ℚ
  deriving DecidableEq, Repr

/-- `_analyze_business_model`: each ratio guarded by
`if denominator > 0 else 0`. -/
def analyzeBusinessModel (d : CompanyFinancials) : BizChars :=
  let latestE := d.ebitda.getLastD 0
  let latestR := d.revenues.getLastD 0
  let avgCapex := npMean (lastN 3 d.capex)
  let avgRev := npMean (lastN 3 d.revenues)
  { ebitda_margin := if 0 < latestR then latestE / latestR else 0
    asset_intensity := if 0 < latestR then d.total_assets / latestR else 0
    revenue_volatility_sq := revVolSq d
    leverage := if 0 < latestE then d.total_debt / latestE else 0
    capex_intensity := if 0 < avgRev then avgCapex / avgRev else 0 }

/-- Engine instance state: the borrowed record plus the two lazily
populated caches `self.validation_results` and `self._sector_enum`. -/
structure ValidationResults where
  use_forward_fcf : Bool
  flags : List String
  sector : String
  sector_override : Bool
  original_sector : String
  deriving DecidableEq, Repr

structure EngineState where
  data : CompanyFinancials
  validation_results : Option ValidationResults := none
  sector_enum : Option InfrastructureSector := none
  deriving DecidableEq, Repr

/-- The `sector_mapping` dict of `_classify_sector`, in insertion
order (Python dicts iterate in insertion order). -/
def sectorMapping : List (String × InfrastructureSector) :=
  [("towers", .TOWERS), ("tower", .TOWERS),
   ("reit", .REITS), ("reits", .REITS),
   ("utilities", .UTILITIES), ("utility", .UTILITIES),
   ("pipeline", .PIPELINES), ("pipelines", .PIPELINES),
   ("toll", .TOLL_ROADS),
   ("airport", .AIRPORTS), ("airports", .AIRPORTS),
   ("data center", .DATA_CENTERS), ("datacenter", .DATA_CENTERS),
   ("telecom", .TELECOM_INFRA), ("telecommunications", .TELECOM_INFRA)]

/-- Contiguous-substring test on character lists (Python `key in s`). -/
def isSegOf (needle : List Char) : List Char → Bool
  | [] => needle.isEmpty
  | c :: cs => needle.isPrefixOf (c :: cs) || isSegOf needle cs

/-- The branch structure of `_classify_sector`: the tower fingerprint,
then the REIT fingerprint, then the label dictionary; `none` is the
`OTHER` default.  The tower fingerprint's `revenue_volatility < 0.15`
is embedded as `revenue_volatility_sq < 0.15²`. -/
def classifyOutcome (st : EngineState) : Option InfrastructureSector :=
  let ch := analyzeBusinessModel st.data
  if (0.50 : ℚ) < ch.ebitda_margin ∧ (3 : ℚ) < ch.asset_intensity ∧
     ch.asset_intensity < 15 ∧ ch.revenue_volatility_sq < (0.15 : ℚ) ^ 2 ∧
     (4 : ℚ) < ch.leverage then
    some .TOWERS
  else if (0.60 : ℚ) < ch.ebitda_margin ∧ (8 : ℚ) < ch.asset_intensity then
    some .REITS
  else
    (sectorMapping.find?
        (fun p => isSegOf p.1.toList st.data.sector.toLower.toList)).map
      (fun p => p.2)

/-- `_classify_sector`: on a fingerprint or label match the matched
sector is stored in `self._sector_enum` and its canonical label is
written into `self.data.sector`; in the `OTHER` default only
`self._sector_enum` is set and the record is untouched. -/
def classifySector (st : EngineState) : EngineState :=
  match classifyOutcome st with
  | some s =>
      { st with data := { st.data with sector := sectorValue s },
                sector_enum := some s }
  | none => { st with sector_enum := some .OTHER }

/-- `if self._sector_enum is None: self._classify_sector()`. -/
def ensureClassified (st : EngineState) : EngineState :=
  match st.sector_enum with
  | some _ => st
  | none => classifySector st

/-- The EBITDA-based fallback of `_calculate_historical_fcf`:
per period, `tax = EBIT·rate` when `EBIT > 0` else `0`,
`FCF = (EBITDA − tax) − capex`. -/
def fallbackFCF (d : CompanyFinancials) : List ℚ :=
  fallbackLoop d.ebitda d.depreciation d.capex d.effective_tax_rate
where
  fallbackLoop : List ℚ → List ℚ → List ℚ → ℚ → List ℚ
    | e :: es, dep :: deps, c :: cs, rate =>
        let ebit := e - dep
        let tax := if 0 < ebit then ebit * rate else 0
        (e - tax - c) :: fallbackLoop es deps cs rate
    | _, _, _, _ => []

/-- `_calculate_historical_fcf`: `OCF − capex` when a non-empty
operating-cash-flow series is supplied (Python truthiness treats
`None` and `[]` alike), else the EBITDA approximation. -/
def historicalFCF (d : CompanyFinancials) : List ℚ :=
  match d.operating_cash_flow with
  | some (o :: os) =>
      List.zipWith (fun ocf c => ocf - c) (o :: os) d.capex
  | _ => fallbackFCF d

/-- Per-period `capex/EBITDA > 1.0` test of detector rule 2.  The
source divides numpy float arrays: a zero EBITDA entry yields
`±inf`/`nan` (with a warning, not an exception), which compares
`> 1.0` exactly when the capex entry is positive. -/
def highCapexPeriod (c e : ℚ) : Bool :=
  if e = 0 then decide (0 < c) else decide (1 < c / e)

/-- The eight recognized infrastructure sectors of detector rule 3. -/
def infraSectors : List InfrastructureSector :=
  [.TOWERS, .TELECOM_INFRA, .UTILITIES, .PIPELINES,
   .REITS, .TOLL_ROADS, .AIRPORTS, .DATA_CENTERS]

/-- `_should_use_forward_fcf`: the ordered flag list.  Rule 6's
`capex_cv > 0.5` is embedded as
`0 < mean ∧ 0.5²·mean² < variance` (exact for `np.std ≥ 0`). -/
def detectFlags (st0 : EngineState) (hist : List ℚ) : List String :=
  let st := ensureClassified st0
  let d := st.data
  let rule1 :=
    if 5 ≤ hist.length then
      decide (3 ≤ (lastN 5 hist).countP (fun x => decide (x < 0)))
    else if 3 ≤ hist.length then
      decide (2 ≤ (lastN 3 hist).countP (fun x => decide (x < 0)))
    else false
  let capexToEbitda := List.zipWith highCapexPeriod d.capex d.ebitda
  let rule2 :=
    if 5 ≤ capexToEbitda.length then
      decide (3 ≤ (lastN 5 capexToEbitda).countP id)
    else if 3 ≤ capexToEbitda.length then
      decide (2 ≤ (lastN 3 capexToEbitda).countP id)
    else false
  let rule3 :=
    match st.sector_enum with
    | some s => decide (s ∈ infraSectors)
    | none => false
  let rule4 := decide (0 < d.ebitda.getLastD 0 ∧ hist.getLastD 0 < 0)
  let rule5 :=
    match d.avg_contract_duration with
    | some dur => decide (5 < dur)
    | none => false
  let rule6 :=
    if 5 ≤ d.capex.length then
      let w := lastN 5 d.capex
      decide (0 < npMean w ∧ (0.5 : ℚ) ^ 2 * (npMean w) ^ 2 < popVar w)
    else false
  (if rule1 then ["sustained_negative_fcf"] else []) ++
  (if rule2 then ["high_growth_capex"] else []) ++
  (if rule3 then ["infrastructure_sector"] else []) ++
  (if rule4 then ["ebitda_fcf_divergence"] else []) ++
  (if rule5 then ["contracted_revenues"] else []) ++
  (if rule6 then ["high_capex_volatility"] else [])

/-- `validate_and_classify`: classifies (mutating `data.sector` and
`_sector_enum`), runs the detector, and fills `validation_results`.
The returned `(is_valid, errors)` pair of the source is always
`(True, [])`, so only the state effect is modelled. -/
def validateAndClassify (st : EngineState) : EngineState :=
  let original := st.data.sector
  let st1 := classifySector st
  let hist := historicalFCF st1.data
  let flags := detectFlags st1 hist
  let sectorStr :=
    match st1.sector_enum with
    | some s => sectorValue s
    | none => st1.data.sector
  let vr : ValidationResults :=
    { use_forward_fcf := decide (2 ≤ flags.length)
      flags := flags
      sector := sectorStr
      sector_override := decide (original ≠ st1.data.sector)
      original_sector := original }
  { st1 with validation_results := some vr }

/-- `if self.validation_results is None: self.validate_and_classify()`. -/
def ensureValidated (st : EngineState) : EngineState :=
  match st.validation_results with
  | some _ => st
  | none => validateAndClassify st

/-- `_get_ebitda_baseline`: latest EBITDA unless the trailing
3-period coefficient of variation exceeds 0.15, in which case the
3-period mean.  `cv > 0.15` (with `cv = std/mean` when `mean > 0`,
else `0`) is embedded as `0 < mean ∧ 0.15²·mean² < variance`. -/
def ebitdaBaseline (d : CompanyFinancials) : ℚ :=
  let latest := d.ebitda.getLastD 0
  if 3 ≤ d.ebitda.length then
    let recent := lastN 3 d.ebitda
    let m := npMean recent
    if 0 < m ∧ (0.15 : ℚ) ^ 2 * m ^ 2 < popVar recent then m else latest
  else latest

/-- The `MAINTENANCE_CAPEX_BENCHMARKS` table (`none` for `OTHER`,
which is absent from the dict). -/
def maintBenchmark : InfrastructureSector → Option ℚ
  | .TOWERS => some 0.06
  | .TELECOM_INFRA => some 0.07
  | .REITS => some 0.12
  | .UTILITIES => some 0.45
  | .PIPELINES => some 0.25
  | .TOLL_ROADS => some 0.15
  | .AIRPORTS => some 0.20
  | .DATA_CENTERS => some 0.10
  | .OTHER => none

/-- The `ASSET_BETA_BENCHMARKS` table (`none` for `OTHER`). -/
def betaBenchmark : InfrastructureSector → Option ℚ
  | .TOWERS => some 0.6
  | .TELECOM_INFRA => some 0.65
  | .REITS => some 0.55
  | .UTILITIES => some 0.40
  | .PIPELINES => some 0.50
  | .TOLL_ROADS => some 0.70
  | .AIRPORTS => some 0.75
  | .DATA_CENTERS => some 0.65
  | .OTHER => none

/-- `_estimate_maintenance_capex`: guidance (`is not None`), else the
sector benchmark rate times latest revenue, else the 25th percentile
of the capex series. -/
def estimateMaintCapex (st : EngineState) : ℚ :=
  match st.data.maintenance_capex_guidance with
  | some g => g
  | none =>
    match st.sector_enum with
    | some s =>
        match maintBenchmark s with
        | some rate => st.data.revenues.getLastD 0 * rate
        | none => npPercentile25 st.data.capex
    | none => npPercentile25 st.data.capex

/-- The zero-working-capital sectors of `_estimate_wc_change`. -/
def zeroWCSectors : List InfrastructureSector :=
  [.TOWERS, .TELECOM_INFRA, .UTILITIES, .PIPELINES]

/-- `_estimate_wc_change`: `0` for contracted-revenue sectors, else
`latest_revenue × revenue_growth_rate × 0.02`. -/
def estimateWCChange (st : EngineState) : ℚ :=
  let inList :=
    match st.sector_enum with
    | some s => decide (s ∈ zeroWCSectors)
    | none => false
  if inList then 0
  else st.data.revenues.getLastD 0 * st.data.revenue_growth_rate * 0.02

/-- The arithmetic of `_calculate_forward_fcf` on an
already-classified state. -/
def forwardFCFvalue (st : EngineState) : ℚ :=
  let base := ebitdaBaseline st.data
  let maint := estimateMaintCapex st
  let ebit := base - st.data.depreciation.getLastD 0
  let tax := if 0 < ebit then ebit * st.data.effective_tax_rate else 0
  base - maint - tax - estimateWCChange st

/-- `_calculate_forward_fcf`: ensures classification (a state
effect), then computes the normalized forward FCF. -/
def forwardFCF (st : EngineState) : ℚ × EngineState :=
  let st1 := ensureClassified st
  (forwardFCFvalue st1, st1)

/-- `_calculate_historical_average_fcf`: mean of the most recent
3 periods of historical FCF (mean of all when fewer than 3). -/
def historicalAvgFCF (d : CompanyFinancials) : ℚ :=
  let hist := historicalFCF d
  if 3 ≤ hist.length then npMean (lastN 3 hist) else npMean hist

/-- `self.validation_results['use_forward_fcf']` (the `none` default
is unreachable after `ensureValidated`). -/
def useForwardOf (st : EngineState) : Bool :=
  match st.validation_results with
  | some v => v.use_forward_fcf
  | none => false

/-- `calculate_normalized_fcf`. -/
def calculateNormalizedFCF (st0 : EngineState) : (ℚ × String) × EngineState :=
  let st := ensureValidated st0
  if useForwardOf st then
    let (f, st1) := forwardFCF st
    ((f, "forward_ebitda_based"), st1)
  else
    ((historicalAvgFCF st.data, "historical_average"), st)

/-- Whether `_get_ebitda_baseline` returns the `np.mean` of the
trailing 3 periods (an `np.float64`) rather than the latest list
entry (a plain Python number): exactly when the trailing coefficient
of variation exceeds 0.15.  Same condition as in `ebitdaBaseline`. -/
def baselineIsMean (d : CompanyFinancials) : Bool :=
  if 3 ≤ d.ebitda.length then
    let recent := lastN 3 d.ebitda
    let m := npMean recent
    decide (0 < m ∧ (0.15 : ℚ) ^ 2 * m ^ 2 < popVar recent)
  else false

/-- Whether `_estimate_maintenance_capex` falls through to
`np.percentile` (an `np.float64`): no guidance and no sector
benchmark. -/
def maintIsPercentile (st : EngineState) : Bool :=
  match st.data.maintenance_capex_guidance with
  | some _ => false
  | none =>
    match st.sector_enum with
    | some s => (maintBenchmark s).isNone
    | none => true

/-- Whether the normalized FCF produced by `calculate_normalized_fcf`
is an `np.float64` rather than a plain Python float (record fields
are plain Python numbers as supplied by the callers in this
repository).  The historical path always returns `np.mean(...)`; the
forward path is contaminated exactly when the EBITDA baseline is the
3-period `np.mean` or maintenance capex comes from `np.percentile`
(tax and ΔWC are derived from those or plain).  The distinction
matters because dividing an `np.float64` by the float `0.0` yields
`inf`/`nan` with a `RuntimeWarning`, while dividing a plain float by
`0.0` raises `ZeroDivisionError`. -/
def nfcfIsNumpy (st0 : EngineState) : Bool :=
  let st := ensureValidated st0
  if useForwardOf st then
    baselineIsMean (ensureClassified st).data ||
      maintIsPercentile (ensureClassified st)
  else true

/-- Asset-beta selection inside `calculate_wacc`: caller value, else
sector benchmark, else 0.60. -/
def assetBetaOf (st : EngineState) : ℚ :=
  match st.data.asset_beta with
  | some b => b
  | none =>
    match st.sector_enum with
    | some s =>
        match betaBenchmark s with
        | some b => b
        | none => 0.60
    | none => 0.60

/-- `calculate_wacc`: CAPM cost of equity with asset beta, after-tax
cost of debt (`risk_free + 200bps` when debt is zero), market-value
weights (0.5/0.5 when `market_cap + total_debt` is not positive). -/
def calculateWACC (st : EngineState) : ℚ :=
  let d := st.data
  let costOfEquity := d.risk_free_rate + assetBetaOf st * d.market_risk_premium
  let costOfDebt :=
    if 0 < d.total_debt then
      d.interest_expense.getLastD 0 / d.total_debt * (1 - d.effective_tax_rate)
    else d.risk_free_rate + 0.02
  let totalValue := d.market_cap + d.total_debt
  let weightEquity := if 0 < totalValue then d.market_cap / totalValue else
    (0.5 : ℚ)
  let weightDebt := if 0 < totalValue then d.total_debt / totalValue else
    (0.5 : ℚ)
  weightEquity * costOfEquity + weightDebt * costOfDebt

/-- `ValuationResult` dataclass. -/
structure ValuationResult where
  enterprise_value : ℚ
  equity_value : ℚ
  intrinsic_value_per_share : ℚ
  normalized_fcf : ℚ
  wacc : ℚ
  method : String
  forward_fcf_used : Bool
  flags : List String
  pv_explicit_period : ℚ
  pv_terminal_value : ℚ
  projected_fcf : List ℚ
  terminal_value : ℚ
  company_name : String
  sector : String
  sector_override : Bool
  original_sector : String
  deriving DecidableEq, Repr

/-- The custom-growth-schedule preparation of `calculate_valuation`:
a schedule shorter than the horizon is extended with the terminal
growth rate, a longer one is truncated to the horizon. -/
def extendedRates (sched : List ℚ) (py : ℕ) (gT : ℚ) : List ℚ :=
  if sched.length < py then
    sched ++ List.replicate (py - sched.length) gT
  else sched.take py

/-- The default tapering schedule: year `y` (1-based) grows at
`high·(1 − y/py) + terminal·(y/py)`. -/
def taperRates (gH gT : ℚ) (py : ℕ) : List ℚ :=
  (List.range py).map (fun (i : ℕ) =>
    let y : ℚ := (i : ℚ) + 1
    gH * (1 - y / (py : ℚ)) + gT * (y / (py : ℚ)))

/-- The projection loop: each year's FCF is the previous year's FCF
times `(1 + growth rate)`, compounding from the base. -/
def projectLoop (fcfPrev : ℚ) : List ℚ → List ℚ
  | [] => []
  | r :: rs =>
      let f := fcfPrev * (1 + r)
      f :: projectLoop f rs

/-- Present value of the explicit period:
`Σ fcf_i / (1+wacc)^(i+1)` over the projected list. -/
def pvSumAux (wacc : ℚ) (i : ℕ) : List ℚ → ℚ
  | [] => 0
  | f :: fs => f / (1 + wacc) ^ (i + 1) + pvSumAux wacc (i + 1) fs

/-- `self.validation_results['flags']`. -/
def flagsOf (st : EngineState) : List String :=
  match st.validation_results with
  | some v => v.flags
  | none => []

/-- `self.validation_results['sector']`. -/
def sectorResOf (st : EngineState) : String :=
  match st.validation_results with
  | some v => v.sector
  | none => ""

/-- `self.validation_results['sector_override']`. -/
def overrideOf (st : EngineState) : Bool :=
  match st.validation_results with
  | some v => v.sector_override
  | none => false

/-- `self.validation_results['original_sector']`. -/
def originalOf (st : EngineState) : String :=
  match st.validation_results with
  | some v => v.original_sector
  | none => ""

def projRates (st : EngineState) (py : ℕ) (custom : Option (List ℚ)) :
    List ℚ :=
  match custom with
  | some cs => extendedRates cs py st.data.terminal_growth_rate
  | none =>
      taperRates st.data.revenue_growth_rate st.data.terminal_growth_rate py

/-- Steps 4-9 of `calculate_valuation` on the post-normalization
state.  `none` models a raised Python error: `projected_fcf[-1]` on
an empty list (horizon 0) raises `IndexError` unconditionally, while
the divisions by the zero spread `wacc - terminal_growth` or by zero
discount factors (`1 + wacc = 0`) raise `ZeroDivisionError` exactly
when the projected FCF values are plain Python floats
(`npFcf = false`; the growth factors and WACC are always plain).
When they are `np.float64` (`npFcf = true`, see `nfcfIsNumpy`), numpy
division by the float `0.0` yields `inf`/`nan` with a
`RuntimeWarning` and the valuation completes; those non-finite values
have no `ℚ` counterpart, so on that value-degenerate but completing
branch the total-division convention `x / 0 = 0` stands in — no claim
reads the numeric result fields there. -/
def calcCore (st : EngineState) (nfcf : ℚ) (npFcf : Bool) (py : ℕ)
    (custom : Option (List ℚ)) : Option ValuationResult :=
  let d := st.data
  let wacc := calculateWACC st
  let gT := d.terminal_growth_rate
  let projected := projectLoop nfcf (projRates st py custom)
  match projected.getLast? with
  | none => none
  | some lastF =>
      let terminalFcf := lastF * (1 + gT)
      if npFcf = false ∧ (wacc - gT = 0 ∨ (1 : ℚ) + wacc = 0) then none
      else
        let terminalValue := terminalFcf / (wacc - gT)
        let pvFcf := pvSumAux wacc 0 projected
        let pvTerminal := terminalValue / (1 + wacc) ^ py
        let ev := pvFcf + pvTerminal
        let eq := ev - d.net_debt
        let perShare :=
          if 0 < d.shares_outstanding then eq / d.shares_outstanding else 0
        some
          { enterprise_value := ev
            equity_value := eq
            intrinsic_value_per_share := perShare
            normalized_fcf := nfcf
            wacc := wacc
            method := "dcf_fcff"
            forward_fcf_used := useForwardOf st
            flags := flagsOf st
            pv_explicit_period := pvFcf
            pv_terminal_value := pvTerminal
            projected_fcf := projected
            terminal_value := terminalValue
            company_name := d.company_name
            sector := sectorResOf st
            sector_override := overrideOf st
            original_sector := originalOf st }

/-- `calculate_valuation`: validation/classification (cached), FCF
normalization, WACC, projection and assembly.  Returns the result
together with the mutated engine state; `none` models a raised
error. -/
def calculateValuation (st0 : EngineState) (py : ℕ)
    (custom : Option (List ℚ)) : Option (ValuationResult × EngineState) :=
  let st1 := ensureValidated st0
  let nf := calculateNormalizedFCF st1
  (calcCore nf.2 nf.1.1 (nfcfIsNumpy st1) py custom).map (fun r => (r, nf.2))

/-! ### Concrete records used as witnesses and counterexamples -/

/-- A minimal valid record (three flat periods). -/
def rawC1 : CompanyFinancials :=
  { company_name := "C1Co", sector := "towers",
    revenues := [1, 1, 1], ebitda := [1, 1, 1],
    depreciation := [0, 0, 0], interest_expense := [0, 0, 0],
    capex := [0, 0, 0], total_debt := 100, cash := 20 }

/-- The record produced by constructing `rawC1`. -/
def recC1 : CompanyFinancials :=
  match mkFinancials rawC1 with
  | some r => r
  | none => rawC1

/-! ### C1: the net-debt invariant -/

/-- C1 (counterexample): `net_debt` is assigned once in
`__post_init__` and is a plain stored attribute afterwards; mutating
`total_debt` in place (`record.total_debt = 500`) leaves `net_debt`
stale, so the claimed lifetime invariant
`net_debt = total_debt - cash` fails after the mutation. -/
theorem C1_counterexample :
    mkFinancials rawC1 = some recC1 ∧
    recC1.net_debt = recC1.total_debt - recC1.cash ∧
    (setTotalDebt recC1 500).net_debt ≠
      (setTotalDebt recC1 500).total_debt - (setTotalDebt recC1 500).cash := by
  refine ⟨rfl, rfl, ?_⟩
  apply of_decide_eq_true
  with_unfolding_all rfl

/-- C1 (amended): for every successfully constructed record,
`net_debt = total_debt - cash` holds at construction time; the field
is set exactly once by `__post_init__` and is not recomputed on later
in-place mutation of `total_debt` or `cash`. -/
theorem C1_net_debt_at_construction (d r : CompanyFinancials)
    (h : mkFinancials d = some r) :
    r.net_debt = r.total_debt - r.cash := by
  unfold mkFinancials at h
  dsimp only at h
  split at h
  · split at h
    · injection h with h
      subst h
      rfl
    · exact absurd h (by simp)
  · exact absurd h (by simp)

/-- C1 witness: the amended theorem applied to `rawC1`. -/
theorem C1_witness : recC1.net_debt = recC1.total_debt - recC1.cash :=
  C1_net_debt_at_construction rawC1 recC1 rfl

/-! ### Projection lemmas (C7) -/

theorem projectLoop_length (rs : List ℚ) (f : ℚ) :
    (projectLoop f rs).length = rs.length := by
  induction rs generalizing f with
  | nil => rfl
  | cons r rs ih => simp [projectLoop, ih]

theorem extendedRates_length (sched : List ℚ) (py : ℕ) (gT : ℚ) :
    (extendedRates sched py gT).length = py := by
  unfold extendedRates
  split
  · simp only [List.length_append, List.length_replicate]
    omega
  · simp only [List.length_take]
    omega

theorem taperRates_length (gH gT : ℚ) (py : ℕ) :
    (taperRates gH gT py).length = py := by
  unfold taperRates
  rw [List.length_map, List.length_range]

theorem projectLoop_getD (rs : List ℚ) (f : ℚ) (i : ℕ) (h : i < rs.length) :
    (projectLoop f rs).getD i 0 =
      (if i = 0 then f else (projectLoop f rs).getD (i - 1) 0) *
        (1 + rs.getD i 0) := by
  induction rs generalizing f i with
  | nil => simp at h
  | cons r rs ih =>
    cases i with
    | zero => simp [projectLoop]
    | succ j =>
      have hj : j < rs.length := by simpa using h
      simp only [projectLoop, List.getD_cons_succ, Nat.succ_ne_zero,
        if_false, Nat.succ_sub_one]
      rw [ih (f * (1 + r)) j hj]
      congr 1
      cases j with
      | zero => simp
      | succ k => simp [List.getD_cons_succ]

theorem extendedRates_getD_lt (sched : List ℚ) (py : ℕ) (gT : ℚ)
    (i : ℕ) (hpy : i < py) (hi : i < sched.length) :
    (extendedRates sched py gT).getD i 0 = sched.getD i 0 := by
  unfold extendedRates
  split
  · simp only [List.getD_eq_getElem?_getD]
    rw [List.getElem?_append_left hi]
  · simp only [List.getD_eq_getElem?_getD]
    rw [List.getElem?_take_of_lt hpy]

theorem extendedRates_getD_ge (sched : List ℚ) (py : ℕ) (gT : ℚ)
    (i : ℕ) (hpy : i < py) (hi : sched.length ≤ i) :
    (extendedRates sched py gT).getD i 0 = gT := by
  unfold extendedRates
  split
  · simp only [List.getD_eq_getElem?_getD]
    rw [List.getElem?_append_right hi, List.getElem?_replicate]
    have hlt : i - sched.length < py - sched.length := by omega
    simp [hlt]
  · omega

/-- C7: with an explicit growth schedule, the supplied years use the
schedule entries (truncated to the horizon), every remaining year
uses the terminal growth rate, and each projected year's FCF is the
previous year's FCF times one plus that year's rate, compounding
from the normalized base. -/
theorem C7_custom_schedule (base gT : ℚ) (py : ℕ) (sched : List ℚ) :
    (projectLoop base (extendedRates sched py gT)).length = py ∧
    ∀ i, i < py →
      (projectLoop base (extendedRates sched py gT)).getD i 0 =
        (if i = 0 then base
         else (projectLoop base (extendedRates sched py gT)).getD (i - 1) 0) *
          (1 + (if i < sched.length then sched.getD i 0 else gT)) := by
  constructor
  · rw [projectLoop_length, extendedRates_length]
  · intro i hi
    have hlen : i < (extendedRates sched py gT).length := by
      rw [extendedRates_length]; exact hi
    rw [projectLoop_getD _ _ _ hlen]
    congr 1
    by_cases hsl : i < sched.length
    · rw [extendedRates_getD_lt sched py gT i hi hsl, if_pos hsl]
    · rw [extendedRates_getD_ge sched py gT i hi (le_of_not_lt hsl),
        if_neg hsl]

/-- C7 witness: the projection property at `base = 10`, horizon 3,
schedule `[1/10]`, terminal rate `1/50`, year 2 (index 1). -/
theorem C7_witness :
    (projectLoop 10 (extendedRates [1/10] 3 (1/50))).getD 1 0 =
      (if (1 : ℕ) = 0 then 10
       else (projectLoop 10 (extendedRates [1/10] 3 (1/50))).getD 0 0) *
        (1 + (if 1 < ([1/10] : List ℚ).length then ([1/10] : List ℚ).getD 1 0
              else 1/50)) :=
  (C7_custom_schedule 10 (1/50) 3 [1/10]).2 1 (by decide)

/-! ### Structural lemmas about the classifier and cached state -/

theorem classify_vr (st : EngineState) :
    (classifySector st).validation_results = st.validation_results := by
  unfold classifySector
  split <;> rfl

theorem classify_enum_isSome (st : EngineState) :
    (classifySector st).sector_enum.isSome = true := by
  unfold classifySector
  split <;> rfl

/-- Every key of the label dictionary maps to a non-`OTHER` sector. -/
theorem sectorMapping_no_other :
    ∀ p ∈ sectorMapping, p.2 ≠ InfrastructureSector.OTHER := by
  decide

/-- No branch of `_classify_sector` assigns `OTHER` explicitly. -/
theorem classifyOutcome_no_other (st : EngineState)
    (s : InfrastructureSector) (h : classifyOutcome st = some s) :
    s ≠ InfrastructureSector.OTHER := by
  unfold classifyOutcome at h
  dsimp only at h
  split_ifs at h
  · injection h with h
    subst h
    decide
  · injection h with h
    subst h
    decide
  · rcases Option.map_eq_some'.mp h with ⟨p, hp, hps⟩
    subst hps
    exact sectorMapping_no_other p (List.mem_of_find?_eq_some hp)

/-- Case analysis on `_classify_sector`: either some non-`OTHER`
sector is assigned and the record's sector string is overwritten with
its canonical label, or the default `OTHER` is assigned and the
record is untouched. -/
theorem classify_cases (st : EngineState) :
    (∃ s, (classifySector st).sector_enum = some s ∧
      s ≠ InfrastructureSector.OTHER ∧
      (classifySector st).data.sector = sectorValue s) ∨
    ((classifySector st).sector_enum = some InfrastructureSector.OTHER ∧
      (classifySector st).data = st.data) := by
  unfold classifySector
  cases hc : classifyOutcome st with
  | some s => exact Or.inl ⟨s, rfl, classifyOutcome_no_other st s hc, rfl⟩
  | none => exact Or.inr ⟨rfl, rfl⟩

/-- The classifier changes no record field other than `sector`. -/
theorem classify_data_frame (st : EngineState) :
    (classifySector st).data =
      { st.data with sector := (classifySector st).data.sector } := by
  unfold classifySector
  split <;> rfl

theorem vac_data (st : EngineState) :
    (validateAndClassify st).data = (classifySector st).data := rfl

theorem vac_enum (st : EngineState) :
    (validateAndClassify st).sector_enum = (classifySector st).sector_enum := rfl

theorem vac_vr_isSome (st : EngineState) :
    (validateAndClassify st).validation_results.isSome = true := rfl

theorem overrideOf_vac (st : EngineState) :
    overrideOf (validateAndClassify st) =
      decide (st.data.sector ≠ (classifySector st).data.sector) := rfl

/-! ### C3: the `overridden` flag -/

/-- The state of a fresh engine on the record `d`. -/
def freshState (d : CompanyFinancials) : EngineState := { data := d }

/-- A record whose ratios match no fingerprint and whose sector label
`"banking"` matches no dictionary key: classification falls through
to `OTHER`. -/
def dBank : CompanyFinancials :=
  { company_name := "BankCo", sector := "banking",
    revenues := [100, 100, 100], ebitda := [10, 10, 10],
    depreciation := [2, 2, 2], interest_expense := [1, 1, 1],
    capex := [5, 5, 5], total_debt := 0, cash := 0,
    total_assets := 50, market_cap := 200, shares_outstanding := 10,
    net_debt := 0 }

/-- C3 (counterexample): in the default `OTHER` outcome the final
sector's canonical label `"other"` differs from the caller's original
string `"banking"`, yet `overridden` is reported `false`, because the
code compares the (unchanged) record string, not the canonical label. -/
theorem C3_counterexample :
    (classifySector (freshState dBank)).sector_enum =
      some InfrastructureSector.OTHER ∧
    overrideOf (validateAndClassify (freshState dBank)) = false ∧
    sectorValue InfrastructureSector.OTHER ≠ (freshState dBank).data.sector := by
  refine ⟨?_, ?_, by decide⟩
  · with_unfolding_all rfl
  · with_unfolding_all rfl

/-- C3 (amended): `overridden` is true iff the record's final sector
string differs from the original string.  When a fingerprint or
label-fallback match assigns a non-`OTHER` sector, that string is the
canonical label, so `overridden = (canonical ≠ original)`; in the
default `OTHER` outcome the string is left unchanged and `overridden`
is always false, even when the canonical label `"other"` differs from
the original. -/
theorem C3_override_flag (st : EngineState) (s : InfrastructureSector)
    (hs : (classifySector st).sector_enum = some s) :
    (s ≠ InfrastructureSector.OTHER →
      overrideOf (validateAndClassify st) =
        decide (sectorValue s ≠ st.data.sector)) ∧
    (s = InfrastructureSector.OTHER →
      overrideOf (validateAndClassify st) = false) := by
  rcases classify_cases st with ⟨s0, h0, hne0, hsec0⟩ | ⟨h0, hdata0⟩
  · rw [h0] at hs
    injection hs with hs
    subst hs
    refine ⟨fun _ => ?_, fun habs => absurd habs hne0⟩
    rw [overrideOf_vac, hsec0]
    exact decide_eq_decide.mpr ne_comm
  · rw [h0] at hs
    injection hs with hs
    subst hs
    refine ⟨fun habs => absurd rfl habs, fun _ => ?_⟩
    rw [overrideOf_vac, hdata0]
    simp

/-- C3 witness: the amended theorem applied to the concrete `OTHER`
case `dBank`. -/
theorem C3_witness :
    overrideOf (validateAndClassify (freshState dBank)) = false :=
  (C3_override_flag (freshState dBank) InfrastructureSector.OTHER
    (by with_unfolding_all rfl)).2 rfl

/-! ### Lazy-cache lemmas -/

theorem ensureValidated_of_isSome (st : EngineState)
    (h : st.validation_results.isSome = true) : ensureValidated st = st := by
  rcases hv : st.validation_results with _ | v
  · rw [hv] at h
    exact absurd h (by simp)
  · unfold ensureValidated
    rw [hv]

theorem ensureValidated_vr_isSome (st : EngineState) :
    (ensureValidated st).validation_results.isSome = true := by
  unfold ensureValidated
  rcases hv : st.validation_results with _ | v
  · exact vac_vr_isSome st
  · simp [hv]

theorem ensureClassified_of_isSome (st : EngineState)
    (h : st.sector_enum.isSome = true) : ensureClassified st = st := by
  rcases hv : st.sector_enum with _ | s
  · rw [hv] at h
    exact absurd h (by simp)
  · unfold ensureClassified
    rw [hv]

theorem ensureClassified_enum_isSome (st : EngineState) :
    (ensureClassified st).sector_enum.isSome = true := by
  unfold ensureClassified
  rcases hv : st.sector_enum with _ | s
  · exact classify_enum_isSome st
  · simp [hv]

theorem ensureClassified_vr (st : EngineState) :
    (ensureClassified st).validation_results = st.validation_results := by
  unfold ensureClassified
  rcases hv : st.sector_enum with _ | s
  · exact classify_vr st
  · rfl

theorem ensureClassified_idem (st : EngineState) :
    ensureClassified (ensureClassified st) = ensureClassified st :=
  ensureClassified_of_isSome _ (ensureClassified_enum_isSome st)

theorem useForwardOf_ensureClassified (st : EngineState) :
    useForwardOf (ensureClassified st) = useForwardOf st := by
  unfold useForwardOf
  rw [ensureClassified_vr]

/-- `calculate_normalized_fcf`, unfolded to its two branches. -/
theorem cnf_eq (st0 : EngineState) :
    calculateNormalizedFCF st0 =
      if useForwardOf (ensureValidated st0) then
        ((forwardFCFvalue (ensureClassified (ensureValidated st0)),
          "forward_ebitda_based"),
         ensureClassified (ensureValidated st0))
      else
        ((historicalAvgFCF (ensureValidated st0).data, "historical_average"),
         ensureValidated st0) := by
  unfold calculateNormalizedFCF forwardFCF
  by_cases h : useForwardOf (ensureValidated st0) = true
  · simp [h]
  · simp [h]

theorem cnf_vr_isSome (st0 : EngineState) :
    ((calculateNormalizedFCF st0).2).validation_results.isSome = true := by
  rw [cnf_eq]
  by_cases h : useForwardOf (ensureValidated st0) = true
  · simp only [h, if_true]
    rw [ensureClassified_vr]
    exact ensureValidated_vr_isSome st0
  · simp only [h, if_false, Bool.not_eq_true] at *
    simp only [h, Bool.false_eq_true, if_false]
    exact ensureValidated_vr_isSome st0

/-- When both caches are already populated, `calculate_normalized_fcf`
leaves the engine state unchanged. -/
theorem cnf_state_of_cached (st0 : EngineState)
    (h1 : st0.validation_results.isSome = true)
    (h2 : st0.sector_enum.isSome = true) :
    (calculateNormalizedFCF st0).2 = st0 := by
  rw [cnf_eq, ensureValidated_of_isSome st0 h1]
  by_cases h : useForwardOf st0 = true
  · simp only [h, if_true]
    exact ensureClassified_of_isSome st0 h2
  · simp only [h, Bool.false_eq_true, if_false]

/-- Running `calculate_normalized_fcf` a second time on the state it
produced yields the same value and the same state. -/
theorem cnf_idem (st0 : EngineState) :
    calculateNormalizedFCF ((calculateNormalizedFCF st0).2) =
      ((calculateNormalizedFCF st0).1, (calculateNormalizedFCF st0).2) := by
  by_cases h : useForwardOf (ensureValidated st0) = true
  · have hT : (calculateNormalizedFCF st0).2 =
        ensureClassified (ensureValidated st0) := by
      rw [cnf_eq]
      simp [h]
    have hTvr : ((calculateNormalizedFCF st0).2).validation_results.isSome =
        true := cnf_vr_isSome st0
    rw [cnf_eq ((calculateNormalizedFCF st0).2),
      ensureValidated_of_isSome _ hTvr]
    have huse : useForwardOf ((calculateNormalizedFCF st0).2) = true := by
      rw [hT, useForwardOf_ensureClassified]
      exact h
    simp only [huse, if_true]
    rw [hT, ensureClassified_idem]
    rw [cnf_eq st0]
    simp [h]
  · have hT : (calculateNormalizedFCF st0).2 = ensureValidated st0 := by
      rw [cnf_eq]
      simp [h]
    have hTvr : ((calculateNormalizedFCF st0).2).validation_results.isSome =
        true := cnf_vr_isSome st0
    rw [cnf_eq ((calculateNormalizedFCF st0).2),
      ensureValidated_of_isSome _ hTvr]
    have huse : useForwardOf ((calculateNormalizedFCF st0).2) = false := by
      rw [hT]
      exact Bool.not_eq_true _ |>.mp h
    simp only [huse, Bool.false_eq_true, if_false]
    rw [hT]
    rw [cnf_eq st0]
    simp [h]

/-- The numpy-type flag of the normalized FCF is stable across
re-running the pipeline on the state it produced. -/
theorem nfcfNumpy_state (st0 : EngineState) :
    nfcfIsNumpy ((calculateNormalizedFCF st0).2) = nfcfIsNumpy st0 := by
  unfold nfcfIsNumpy
  dsimp only
  have hev2 : ensureValidated ((calculateNormalizedFCF st0).2) =
      (calculateNormalizedFCF st0).2 :=
    ensureValidated_of_isSome _ (cnf_vr_isSome st0)
  by_cases h : useForwardOf (ensureValidated st0) = true
  · have hT : (calculateNormalizedFCF st0).2 =
        ensureClassified (ensureValidated st0) := by
      rw [cnf_eq]
      simp [h]
    rw [hev2, hT, useForwardOf_ensureClassified, ensureClassified_idem]
  · have hT : (calculateNormalizedFCF st0).2 = ensureValidated st0 := by
      rw [cnf_eq]
      simp [h]
    rw [hev2, hT]

/-! ### C8: idempotence of `calculate_valuation` -/

/-- C8: calling `calculate_valuation` a second time on the engine
state produced by a successful first call, with identical arguments,
returns exactly the same `ValuationResult` (and leaves the state
unchanged), even though the first call populated the classification
and detection caches and possibly rewrote the record's sector
string. -/
theorem C8_idempotent (st : EngineState) (py : ℕ) (c : Option (List ℚ))
    (res : ValuationResult) (st' : EngineState)
    (h : calculateValuation st py c = some (res, st')) :
    calculateValuation st' py c = some (res, st') := by
  unfold calculateValuation at h ⊢
  dsimp only at h ⊢
  rcases Option.map_eq_some'.mp h with ⟨r0, hcore, hpair⟩
  obtain ⟨hr, hs⟩ := Prod.mk.injEq .. |>.mp hpair
  subst hr
  subst hs
  have hev : ensureValidated ((calculateNormalizedFCF (ensureValidated st)).2) =
      (calculateNormalizedFCF (ensureValidated st)).2 :=
    ensureValidated_of_isSome _ (cnf_vr_isSome (ensureValidated st))
  rw [hev, cnf_idem (ensureValidated st), nfcfNumpy_state (ensureValidated st),
    hcore]
  rfl

/-! ### C9: frame effect of the valuation pipeline on the record -/

/-- C9: starting from a fresh engine, a successful valuation leaves
every record field except `sector` unchanged; `sector` is overwritten
with the canonical enum label exactly when a fingerprint or
label-fallback match assigned a non-`OTHER` sector, and is left
unchanged in the default `OTHER` case. -/
theorem C9_record_frame (st : EngineState) (py : ℕ) (c : Option (List ℚ))
    (res : ValuationResult) (st' : EngineState)
    (hfresh : st.validation_results = none)
    (h : calculateValuation st py c = some (res, st')) :
    st'.data = { st.data with sector := (classifySector st).data.sector } ∧
    (∀ s, (classifySector st).sector_enum = some s →
      s ≠ InfrastructureSector.OTHER → st'.data.sector = sectorValue s) ∧
    ((classifySector st).sector_enum = some InfrastructureSector.OTHER →
      st'.data.sector = st.data.sector) := by
  unfold calculateValuation at h
  dsimp only at h
  rcases Option.map_eq_some'.mp h with ⟨r0, _, hpair⟩
  obtain ⟨_, hs⟩ := Prod.mk.injEq .. |>.mp hpair
  have hev : ensureValidated st = validateAndClassify st := by
    unfold ensureValidated
    rw [hfresh]
  have hstate : (calculateNormalizedFCF (ensureValidated st)).2 =
      validateAndClassify st := by
    rw [hev]
    exact cnf_state_of_cached _ (vac_vr_isSome st)
      (by rw [vac_enum]; exact classify_enum_isSome st)
  have hst' : st' = validateAndClassify st := by
    rw [← hs, hstate]
  subst hst'
  refine ⟨?_, ?_, ?_⟩
  · rw [vac_data]
    exact classify_data_frame st
  · intro s hsome hne
    rcases classify_cases st with ⟨s0, h0, _, hsec0⟩ | ⟨h0, _⟩
    · rw [h0] at hsome
      injection hsome with hsome
      subst hsome
      rw [vac_data]
      exact hsec0
    · rw [h0] at hsome
      injection hsome with hsome
      exact absurd hsome.symm hne
  · intro hOther
    rcases classify_cases st with ⟨s0, h0, hne0, _⟩ | ⟨_, hdata0⟩
    · rw [h0] at hOther
      injection hOther with hOther
      exact absurd hOther hne0
    · rw [vac_data, hdata0]

/-! ### C2: completion conditions of `calculate_valuation` -/

theorem projRates_length (st : EngineState) (py : ℕ)
    (c : Option (List ℚ)) : (projRates st py c).length = py := by
  unfold projRates
  cases c
  · exact taperRates_length _ _ _
  · exact extendedRates_length _ _ _

theorem calcCore_isSome_iff (st : EngineState) (nfcf : ℚ) (npFcf : Bool)
    (py : ℕ) (c : Option (List ℚ)) :
    (calcCore st nfcf npFcf py c).isSome = true ↔
      (py ≠ 0 ∧
       (npFcf = true ∨
        (calculateWACC st ≠ st.data.terminal_growth_rate ∧
         (1 : ℚ) + calculateWACC st ≠ 0))) := by
  have hlen : (projectLoop nfcf (projRates st py c)).length = py := by
    rw [projectLoop_length]
    exact projRates_length st py c
  unfold calcCore
  dsimp only
  rcases hL : (projectLoop nfcf (projRates st py c)).getLast? with _ | lastF
  · rw [List.getLast?_eq_none_iff] at hL
    have hpy : py = 0 := by
      rw [← hlen, hL]
      rfl
    simp [hpy]
  · have hpy : py ≠ 0 := by
      intro h0
      subst h0
      rw [List.eq_nil_of_length_eq_zero hlen] at hL
      exact absurd hL (by simp)
    dsimp only
    by_cases hg : npFcf = false ∧
        (calculateWACC st - st.data.terminal_growth_rate = 0 ∨
         (1 : ℚ) + calculateWACC st = 0)
    · rw [if_pos hg]
      obtain ⟨hnp, hor⟩ := hg
      subst hnp
      rcases hor with h | h
      · have hw : calculateWACC st = st.data.terminal_growth_rate :=
          sub_eq_zero.mp h
        simp [hw]
      · simp [h]
    · rw [if_neg hg]
      refine iff_of_true rfl ⟨hpy, ?_⟩
      by_cases hnp : npFcf = true
      · exact Or.inl hnp
      · have hnf : npFcf = false := by
          cases npFcf
          · rfl
          · exact absurd rfl hnp
        refine Or.inr ⟨?_, ?_⟩
        · intro he
          exact hg ⟨hnf, Or.inl (by rw [he, sub_self])⟩
        · intro he
          exact hg ⟨hnf, Or.inr he⟩

/-- C2 (amended): `calculate_valuation` completes without raising iff
the horizon is at least 1 year and, whenever the normalized FCF is a
plain Python float (forward path with guidance or benchmark
maintenance and the latest-EBITDA baseline), the pipeline's WACC
differs from the terminal growth rate and is not exactly −1.  When
the normalized FCF is an `np.float64` (the historical path via
`np.mean`, or the forward path via the `np.mean` baseline or
`np.percentile` maintenance), a zero spread only emits a
`RuntimeWarning` and the valuation completes with `inf`/`nan` values;
on the plain-float paths the same divisions raise
`ZeroDivisionError`, including at exact equality
`wacc = terminal_growth_rate`. -/
theorem C2_completion_iff (st : EngineState) (py : ℕ)
    (c : Option (List ℚ)) :
    (calculateValuation st py c).isSome = true ↔
      (py ≠ 0 ∧
       (nfcfIsNumpy (ensureValidated st) = true ∨
        (calculateWACC ((calculateNormalizedFCF (ensureValidated st)).2) ≠
           ((calculateNormalizedFCF (ensureValidated st)).2).data.terminal_growth_rate ∧
         (1 : ℚ) +
           calculateWACC ((calculateNormalizedFCF (ensureValidated st)).2) ≠ 0))) := by
  unfold calculateValuation
  dsimp only
  rw [Option.isSome_map']
  exact calcCore_isSome_iff _ _ _ py c

/-- A record on the forward path whose normalized FCF stays a plain
Python float (explicit guidance, flat EBITDA so the baseline is the
latest entry) and whose WACC equals the terminal growth rate exactly:
zero debt, positive market cap and a supplied asset beta of 0 give
`wacc = risk_free_rate = 0.02 = terminal_growth_rate`. -/
def dSpreadFwd : CompanyFinancials :=
  { company_name := "SpreadFwd", sector := "towers",
    revenues := [100, 100, 100], ebitda := [30, 30, 30],
    depreciation := [10, 10, 10], interest_expense := [5, 5, 5],
    capex := [0, 0, 0], total_debt := 0, cash := 0, total_assets := 0,
    market_cap := 100, shares_outstanding := 10,
    risk_free_rate := 0.02, asset_beta := some 0,
    maintenance_capex_guidance := some 5,
    avg_contract_duration := some 10, net_debt := 0 }

/-- C2 (counterexample): on `dSpreadFwd` the forward-path normalized
FCF is the plain Python float `30 − 5 − 5 − 0 = 20.0` (guidance
maintenance, latest-EBITDA baseline, zero ΔWC), WACC equals the
terminal growth rate exactly, and the terminal-value division
`20.0·1.02·… / 0.0` raises `ZeroDivisionError` (modelled as `none`)
instead of completing silently as the claim states for exact
equality. -/
theorem C2_counterexample :
    calculateValuation (freshState dSpreadFwd) 5 none = none := by
  with_unfolding_all rfl

/-! ### C5: the forward normalized-FCF formula -/

theorem ite_pos_mul_max (e t : ℚ) :
    (if 0 < e then e * t else 0) = max e 0 * t := by
  by_cases h : 0 < e
  · rw [if_pos h, max_eq_left h.le]
  · rw [if_neg h, max_eq_right (le_of_not_lt h), zero_mul]

/-- `_get_ebitda_baseline` reads only the EBITDA series, so rewriting
the sector string does not change it. -/
theorem ebitdaBaseline_sector (d : CompanyFinancials) (x : String) :
    ebitdaBaseline { d with sector := x } = ebitdaBaseline d := rfl

/-- C5: on the forward path, with explicit maintenance-capex guidance
`M` and a zero-working-capital classified sector, the normalized FCF
equals `EBITDA_baseline − M − max(EBITDA_baseline − D&A[-1], 0) ×
effective_tax_rate` exactly. -/
theorem C5_forward_fcf (d : CompanyFinancials) (M : ℚ)
    (s : InfrastructureSector)
    (hM : d.maintenance_capex_guidance = some M)
    (hs : (classifySector (freshState d)).sector_enum = some s)
    (hwc : s ∈ zeroWCSectors)
    (hfwd : useForwardOf (validateAndClassify (freshState d)) = true) :
    (calculateNormalizedFCF (freshState d)).1 =
      (ebitdaBaseline d - M -
        max (ebitdaBaseline d - d.depreciation.getLastD 0) 0 *
          d.effective_tax_rate,
       "forward_ebitda_based") := by
  have hev : ensureValidated (freshState d) =
      validateAndClassify (freshState d) := rfl
  have hdata : (validateAndClassify (freshState d)).data =
      { d with sector := (classifySector (freshState d)).data.sector } := by
    rw [vac_data]
    exact classify_data_frame (freshState d)
  have hcl : ensureClassified (validateAndClassify (freshState d)) =
      validateAndClassify (freshState d) :=
    ensureClassified_of_isSome _
      (by rw [vac_enum]; exact classify_enum_isSome _)
  have hmaint : estimateMaintCapex (validateAndClassify (freshState d)) = M := by
    unfold estimateMaintCapex
    rw [hdata]
    dsimp only
    rw [hM]
  have hwc0 : estimateWCChange (validateAndClassify (freshState d)) = 0 := by
    unfold estimateWCChange
    rw [vac_enum, hs]
    dsimp only
    rw [decide_eq_true hwc]
    simp
  have hF : forwardFCFvalue (validateAndClassify (freshState d)) =
      ebitdaBaseline d - M -
        max (ebitdaBaseline d - d.depreciation.getLastD 0) 0 *
          d.effective_tax_rate := by
    unfold forwardFCFvalue
    rw [hmaint, hwc0, hdata]
    dsimp only
    rw [ite_pos_mul_max, sub_zero, ebitdaBaseline_sector]
  rw [cnf_eq, hev, hfwd]
  simp only [if_true]
  rw [hcl]
  rw [hF]

/-- A mislabeled-free tower record on the forward path: the `towers`
label matches the dictionary, guidance is supplied, and the
`infrastructure_sector` and `contracted_revenues` flags put it on the
forward path. -/
def dTowerFwd : CompanyFinancials :=
  { company_name := "TowerFwd", sector := "towers",
    revenues := [100, 100, 100], ebitda := [30, 30, 30],
    depreciation := [10, 10, 10], interest_expense := [5, 5, 5],
    capex := [0, 0, 0], total_debt := 0, cash := 0, total_assets := 0,
    market_cap := 100, shares_outstanding := 10,
    maintenance_capex_guidance := some 5,
    avg_contract_duration := some 10, net_debt := 0 }

/-- C5 witness: the forward-FCF formula evaluated on `dTowerFwd`. -/
theorem C5_witness :
    (calculateNormalizedFCF (freshState dTowerFwd)).1 =
      (ebitdaBaseline dTowerFwd - 5 -
        max (ebitdaBaseline dTowerFwd - dTowerFwd.depreciation.getLastD 0) 0 *
          dTowerFwd.effective_tax_rate,
       "forward_ebitda_based") :=
  C5_forward_fcf dTowerFwd 5 InfrastructureSector.TOWERS rfl
    (by with_unfolding_all rfl) (by decide) (by with_unfolding_all rfl)

/-! ### C6: WACC with zero debt -/

/-- C6 (amended): with `total_debt = 0` and a positive market cap,
WACC equals the CAPM cost of equity exactly, with the asset beta
resolved as: caller value if present, else the sector benchmark, else
0.60.  (With `market_cap = 0` as well, the 0.5/0.5 default weights
blend in the synthetic cost of debt, so the claim fails there.) -/
theorem C6_wacc_zero_debt (st : EngineState)
    (hd : st.data.total_debt = 0) (hm : 0 < st.data.market_cap) :
    calculateWACC st =
      st.data.risk_free_rate + assetBetaOf st * st.data.market_risk_premium ∧
    (∀ b, st.data.asset_beta = some b → assetBetaOf st = b) ∧
    (st.data.asset_beta = none → ∀ s q, st.sector_enum = some s →
      betaBenchmark s = some q → assetBetaOf st = q) ∧
    (st.data.asset_beta = none → st.sector_enum.bind betaBenchmark = none →
      assetBetaOf st = 0.60) := by
  refine ⟨?_, ?_, ?_, ?_⟩
  · unfold calculateWACC
    dsimp only
    rw [hd, add_zero, if_neg (lt_irrefl (0 : ℚ)), if_pos hm, if_pos hm,
      div_self hm.ne', zero_div, zero_mul, add_zero, one_mul]
  · intro b hb
    unfold assetBetaOf
    rw [hb]
  · intro hb s q hsome hq
    unfold assetBetaOf
    rw [hb, hsome]
    dsimp only
    rw [hq]
  · intro hb hnone
    unfold assetBetaOf
    rw [hb]
    rcases hse : st.sector_enum with _ | s
    · rfl
    · rw [hse, Option.some_bind] at hnone
      dsimp only
      rw [hnone]

/-- A record with zero debt and zero market cap: WACC falls back to
0.5/0.5 weights and is not the cost of equity. -/
def dNoCap : CompanyFinancials :=
  { company_name := "NoCap", sector := "misc",
    revenues := [1, 1, 1], ebitda := [1, 1, 1],
    depreciation := [0, 0, 0], interest_expense := [0, 0, 0],
    capex := [0, 0, 0], total_debt := 0, cash := 0,
    market_cap := 0, net_debt := 0 }

/-- C6 (counterexample): with `total_debt = 0` but `market_cap = 0`
the weights default to 0.5/0.5 and WACC blends in the synthetic cost
of debt (0.053 versus a cost of equity of 0.061), so the claim as
stated over every zero-debt record is false. -/
theorem C6_counterexample :
    (freshState dNoCap).data.total_debt = 0 ∧
    calculateWACC (freshState dNoCap) ≠
      (freshState dNoCap).data.risk_free_rate +
        assetBetaOf (freshState dNoCap) *
          (freshState dNoCap).data.market_risk_premium := by
  refine ⟨rfl, ?_⟩
  apply of_decide_eq_true
  with_unfolding_all rfl

/-- A record with zero debt and a positive market cap. -/
def dCap : CompanyFinancials :=
  { company_name := "Cap", sector := "misc",
    revenues := [1, 1, 1], ebitda := [1, 1, 1],
    depreciation := [0, 0, 0], interest_expense := [0, 0, 0],
    capex := [0, 0, 0], total_debt := 0, cash := 0,
    market_cap := 100, net_debt := 0 }

/-- C6 witness: the amended theorem applied to `dCap`. -/
theorem C6_witness :
    calculateWACC (freshState dCap) =
      (freshState dCap).data.risk_free_rate +
        assetBetaOf (freshState dCap) *
          (freshState dCap).data.market_risk_premium :=
  (C6_wacc_zero_debt (freshState dCap) rfl
    (by apply of_decide_eq_true; with_unfolding_all rfl)).1

/-! ### C4: zero-denominator behaviour -/

/-- Detector rule 2 as the spec reads it, with a zero-denominator
ratio evaluating to `0` instead of following numpy float semantics;
defined only to be compared against the source's behaviour. -/
def ruleTwoSpecZeroConv (d : CompanyFinancials) : Bool :=
  let q := List.zipWith (fun c e => if e = 0 then (0 : ℚ) else c / e)
    d.capex d.ebitda
  if 5 ≤ q.length then
    decide (3 ≤ (lastN 5 q).countP (fun x => decide (1 < x)))
  else if 3 ≤ q.length then
    decide (2 ≤ (lastN 3 q).countP (fun x => decide (1 < x)))
  else false

/-- A record with a zero EBITDA entry under a positive capex entry:
numpy yields `inf > 1` there, a zero-defaulting ratio would not. -/
def dZeroE : CompanyFinancials :=
  { company_name := "ZeroE", sector := "misc",
    revenues := [10, 10, 10], ebitda := [10, 0, 10],
    depreciation := [0, 0, 0], interest_expense := [0, 0, 0],
    capex := [20, 5, 5], total_debt := 0, cash := 0, net_debt := 0 }

/-- C4 (counterexample): on `dZeroE` the source's detector sets the
`high_growth_capex` flag (the `5/0` period counts as a ratio above 1,
numpy produces `inf`, not `0`), while the zero-defaulting reading of
the same rule does not — so the detector's zero-denominator ratio
does not evaluate to 0. -/
theorem C4_counterexample :
    "high_growth_capex" ∈
      detectFlags (freshState dZeroE) (historicalFCF dZeroE) ∧
    ruleTwoSpecZeroConv dZeroE = false := by
  constructor
  · apply of_decide_eq_true
    with_unfolding_all rfl
  · with_unfolding_all rfl

/-- C4 (amended): every ratio of the classifier guards its zero (or
non-positive) denominator and evaluates to 0 — EBITDA margin and
asset intensity on zero latest revenue, leverage on zero latest
EBITDA, capex intensity on zero trailing-average revenue.  The
detector's per-period capex/EBITDA test, however, divides numpy float
arrays: a zero EBITDA entry yields `±inf`/`nan` (no failure), which
counts as a ratio above 1 exactly when the capex entry is positive,
not as 0. -/
theorem C4_zero_denominators :
    (∀ d : CompanyFinancials, d.revenues.getLastD 0 = 0 →
      (analyzeBusinessModel d).ebitda_margin = 0 ∧
      (analyzeBusinessModel d).asset_intensity = 0) ∧
    (∀ d : CompanyFinancials, d.ebitda.getLastD 0 = 0 →
      (analyzeBusinessModel d).leverage = 0) ∧
    (∀ d : CompanyFinancials, npMean (lastN 3 d.revenues) = 0 →
      (analyzeBusinessModel d).capex_intensity = 0) ∧
    (∀ c : ℚ, highCapexPeriod c 0 = decide (0 < c)) := by
  refine ⟨?_, ?_, ?_, ?_⟩
  · intro d h
    unfold analyzeBusinessModel
    dsimp only
    rw [h]
    exact ⟨if_neg (lt_irrefl (0 : ℚ)), if_neg (lt_irrefl (0 : ℚ))⟩
  · intro d h
    unfold analyzeBusinessModel
    dsimp only
    rw [h]
    exact if_neg (lt_irrefl (0 : ℚ))
  · intro d h
    unfold analyzeBusinessModel
    dsimp only
    rw [h]
    exact if_neg (lt_irrefl (0 : ℚ))
  · intro c
    unfold highCapexPeriod
    rw [if_pos rfl]

/-- A record whose relevant denominators are all zero. -/
def dAllZero : CompanyFinancials :=
  { company_name := "AllZero", sector := "misc",
    revenues := [0, 0, 0], ebitda := [0, 0, 0],
    depreciation := [0, 0, 0], interest_expense := [0, 0, 0],
    capex := [1, 1, 1], total_debt := 3, cash := 0,
    total_assets := 7, net_debt := 3 }

/-- C4 witness: the amended theorem applied to `dAllZero` and to the
concrete period `capex = 5, EBITDA = 0`. -/
theorem C4_witness :
    ((analyzeBusinessModel dAllZero).ebitda_margin = 0 ∧
     (analyzeBusinessModel dAllZero).asset_intensity = 0) ∧
    (analyzeBusinessModel dAllZero).leverage = 0 ∧
    (analyzeBusinessModel dAllZero).capex_intensity = 0 ∧
    highCapexPeriod 5 0 = decide ((0 : ℚ) < 5) :=
  ⟨C4_zero_denominators.1 dAllZero (by with_unfolding_all rfl),
   C4_zero_denominators.2.1 dAllZero (by with_unfolding_all rfl),
   C4_zero_denominators.2.2.1 dAllZero (by with_unfolding_all rfl),
   C4_zero_denominators.2.2.2 5⟩

/-! ### C10: the unvalidated operating-cash-flow series -/

/-- C10: construction never inspects `operating_cash_flow` (any
series, of any length, constructs as long as the five validated
series pass); a supplied non-empty series drives `zip`-truncated
`OCF − capex` history; an empty or absent series falls back to the
EBITDA approximation. -/
theorem C10_ocf_unvalidated :
    (∀ (d : CompanyFinancials) (ocf : Option (List ℚ)),
      (mkFinancials d).isSome = true →
      (mkFinancials { d with operating_cash_flow := ocf }).isSome = true) ∧
    (∀ (d : CompanyFinancials) (o : ℚ) (os : List ℚ),
      d.operating_cash_flow = some (o :: os) →
      historicalFCF d = List.zipWith (fun a b => a - b) (o :: os) d.capex ∧
      (historicalFCF d).length = min (o :: os).length d.capex.length) ∧
    (∀ d : CompanyFinancials, d.operating_cash_flow = some [] →
      historicalFCF d = fallbackFCF d) ∧
    (∀ d : CompanyFinancials, d.operating_cash_flow = none →
      historicalFCF d = fallbackFCF d) := by
  refine ⟨?_, ?_, ?_, ?_⟩
  · intro d ocf h
    unfold mkFinancials at h ⊢
    dsimp only at h ⊢
    split_ifs at h ⊢ <;> simp_all
  · intro d o os h
    unfold historicalFCF
    rw [h]
    exact ⟨rfl, List.length_zipWith _ _ _⟩
  · intro d h
    unfold historicalFCF
    rw [h]
  · intro d h
    unfold historicalFCF
    rw [h]

/-- A valid record carrying a length-2 OCF series next to length-3
validated series. -/
def dOcf : CompanyFinancials :=
  { company_name := "OcfCo", sector := "misc",
    revenues := [10, 10, 10], ebitda := [4, 4, 4],
    depreciation := [1, 1, 1], interest_expense := [0, 0, 0],
    capex := [3, 3, 3], operating_cash_flow := some [7, 8],
    net_debt := 0 }

/-- The same record with an empty OCF list. -/
def dOcfEmpty : CompanyFinancials :=
  { dOcf with company_name := "OcfEmpty", operating_cash_flow := some [] }

/-- The same record with no OCF series. -/
def dOcfNone : CompanyFinancials :=
  { dOcf with company_name := "OcfNone", operating_cash_flow := none }

/-- C10 witness: a mismatched-length OCF series constructs, drives
the zip-truncated history, and the empty/absent cases fall back. -/
theorem C10_witness :
    (mkFinancials { dOcfNone with operating_cash_flow := some [7, 8] }).isSome
      = true ∧
    historicalFCF dOcf = List.zipWith (fun a b => a - b) [7, 8] dOcf.capex ∧
    historicalFCF dOcfEmpty = fallbackFCF dOcfEmpty ∧
    historicalFCF dOcfNone = fallbackFCF dOcfNone :=
  ⟨C10_ocf_unvalidated.1 dOcfNone (some [7, 8]) (by with_unfolding_all rfl),
   (C10_ocf_unvalidated.2.1 dOcf 7 [8] rfl).1,
   C10_ocf_unvalidated.2.2.1 dOcfEmpty rfl,
   C10_ocf_unvalidated.2.2.2 dOcfNone rfl⟩

/-! ### Remaining witnesses for C8 and C9 -/

/-- An inert result used only as a `match` fallback in witness
definitions. -/
def dummyValuation : ValuationResult :=
  { enterprise_value := 0, equity_value := 0,
    intrinsic_value_per_share := 0, normalized_fcf := 0, wacc := 0,
    method := "", forward_fcf_used := false, flags := [],
    pv_explicit_period := 0, pv_terminal_value := 0, projected_fcf := [],
    terminal_value := 0, company_name := "", sector := "",
    sector_override := false, original_sector := "" }

/-- The result/state pair of a first valuation run on `dTowerFwd`. -/
def vw8 : ValuationResult × EngineState :=
  match calculateValuation (freshState dTowerFwd) 2 none with
  | some p => p
  | none => (dummyValuation, freshState dTowerFwd)

/-- C8 witness: rerunning the valuation on the state produced by the
first run reproduces the identical result. -/
theorem C8_witness :
    calculateValuation vw8.2 2 none = some (vw8.1, vw8.2) :=
  C8_idempotent (freshState dTowerFwd) 2 none vw8.1 vw8.2
    (by with_unfolding_all rfl)

/-- The result/state pair of a valuation run on `dBank`. -/
def vw9 : ValuationResult × EngineState :=
  match calculateValuation (freshState dBank) 1 none with
  | some p => p
  | none => (dummyValuation, freshState dBank)

/-- C9 witness: the frame theorem applied to the concrete `dBank`
run, whose default-`OTHER` classification leaves the sector string
unchanged. -/
theorem C9_witness :
    vw9.2.data =
      { (freshState dBank).data with
          sector := (classifySector (freshState dBank)).data.sector } ∧
    vw9.2.data.sector = (freshState dBank).data.sector :=
  ⟨(C9_record_frame (freshState dBank) 1 none vw9.1 vw9.2 rfl
      (by with_unfolding_all rfl)).1,
   (C9_record_frame (freshState dBank) 1 none vw9.1 vw9.2 rfl
      (by with_unfolding_all rfl)).2.2 (by with_unfolding_all rfl)⟩

end DCF
